import Mathlib

/-!
Shallow embedding of the Savings Community backend (src/main.py).

The SQLite tables `users`, `goals`, `sacrifices`, `feed_events` are modelled as
lists kept in insertion (rowid) order, with explicit AUTOINCREMENT counters.
REAL monetary columns are modelled as rationals; TIMESTAMP columns as natural
numbers supplied by the caller (the value of `datetime.now()` / SQLite
`CURRENT_TIMESTAMP` at the operation).  `ORDER BY _ DESC` is modelled as a
stable insertion sort on the relevant column, which on a rowid-ordered table
breaks ties by rowid (insertion order).  JSON `event_data` payloads are
modelled by an inductive type carrying exactly the fields the code serialises.
-/

namespace Savings

open List

/-- Monetary amounts: the REAL columns `total_saved`, `amount`, `target_amount`,
`current_amount`. -/
abbrev Money := ℚ

/-- One row of the `users` table (main.py lines 46-56). -/
structure User where
  id : Nat
  email : String
  name : String
  avatar_url : String
  google_sub : String
  total_saved : Money
  current_streak : Nat
  last_save_date : Option Nat
  created_at : Nat
deriving DecidableEq

/-- One row of the `goals` table (main.py lines 59-68). -/
structure Goal where
  id : Nat
  user_id : Nat
  title : String
  target_amount : Money
  current_amount : Money
  category : String
  created_at : Nat
deriving DecidableEq

/-- One row of the `sacrifices` table (main.py lines 71-80); `days_count` is
the repetition count, default 1. -/
structure Sacrifice where
  id : Nat
  user_id : Nat
  title : String
  amount : Money
  days_count : Nat
  last_done_date : Option Nat
  created_at : Nat
deriving DecidableEq

/-- The JSON `event_data` payloads written by the code: `{goal_id, title}` for
`goal_created` (line 373) and `{sacrifice_id, title, days}` for
`sacrifice_logged` (line 416). -/
inductive EventData where
  | goalCreated (goal_id : Nat) (title : String)
  | sacrificeLogged (sacrifice_id : Nat) (title : String) (days : Nat)
deriving DecidableEq

/-- One row of the `feed_events` table (main.py lines 83-90). -/
structure FeedEvent where
  id : Nat
  user_id : Nat
  event_type : String
  event_data : EventData
  created_at : Nat
deriving DecidableEq

/-- The whole database state: the four tables in rowid order plus the
AUTOINCREMENT counters. -/
structure DB where
  users : List User
  goals : List Goal
  sacrifices : List Sacrifice
  feed_events : List FeedEvent
  next_user_id : Nat
  next_goal_id : Nat
  next_sacrifice_id : Nat
  next_feed_id : Nat
deriving DecidableEq

/-- A freshly initialised database (before any rows are inserted). -/
def emptyDB : DB :=
  { users := [], goals := [], sacrifices := [], feed_events := []
    next_user_id := 1, next_goal_id := 1, next_sacrifice_id := 1, next_feed_id := 1 }

/-- Request body of POST /api/goals (main.py lines 218-221): pydantic model
`GoalCreate` with `category` defaulting to "General". -/
structure GoalCreate where
  title : String
  target_amount : Money
  category : String := "General"
deriving DecidableEq

/-- Request body of POST /api/sacrifices (main.py lines 223-225): pydantic
model `SacrificeCreate`.  No constraint is placed on either field. -/
structure SacrificeCreate where
  title : String
  amount : Money
deriving DecidableEq

/-- Result of `log_sacrifice` (main.py line 423). -/
structure LogResult where
  message : String
  days : Nat
deriving DecidableEq

/-- The error outcomes the routes can produce.  `notFound` is the
HTTPException(404) raised by `get_me`; `typeError` is the uncaught Python
`TypeError` raised by `dict(c.fetchone())` in `get_dashboard` when the user
row is absent (main.py line 312). -/
inductive ApiError where
  | notFound
  | validationError
  | typeError
deriving DecidableEq

/-- `SELECT * FROM users WHERE id = ?` followed by `fetchone()`: the first
row with the given id. -/
def lookupUser (db : DB) (user_id : Nat) : Option User :=
  db.users.find? (fun u => u.id == user_id)

/-- main.py lines 275-288 (google_callback, state part): look the account up
by Google subject; if absent insert a new row, whose columns take the table
defaults `total_saved = 0`, `current_streak = 0`, `last_save_date = NULL`.
Returns the account id the session token is issued for. -/
def getOrCreateUser (db : DB) (sub email name avatar : String) (now : Nat) :
    DB × Nat :=
  match db.users.find? (fun u => u.google_sub == sub) with
  | some u => (db, u.id)
  | none =>
      ({ db with
          users := db.users ++
            [{ id := db.next_user_id, email := email, name := name
               avatar_url := avatar, google_sub := sub, total_saved := 0
               current_streak := 0, last_save_date := none, created_at := now }]
          next_user_id := db.next_user_id + 1 },
       db.next_user_id)

/-- main.py lines 295-303 (GET /api/me): returns the user row, or a 404
`notFound` when the row is absent. -/
def get_me (db : DB) (user_id : Nat) : Except ApiError User :=
  match lookupUser db user_id with
  | none => .error .notFound
  | some u => .ok u

/-- Descending order on the key `k`: row `a` may precede row `b` when
`k b ≤ k a`.  Models `ORDER BY k DESC`; insertion-sorting a rowid-ordered
table with it leaves ties in rowid order. -/
def keyDesc {α β : Type} [LinearOrder β] (k : α → β) (a b : α) : Prop :=
  k b ≤ k a

instance {α β : Type} [LinearOrder β] (k : α → β) : DecidableRel (keyDesc k) :=
  fun a b => inferInstanceAs (Decidable (k b ≤ k a))

instance {α β : Type} [LinearOrder β] (k : α → β) : IsTotal α (keyDesc k) :=
  ⟨fun a b => le_total (k b) (k a)⟩

instance {α β : Type} [LinearOrder β] (k : α → β) : IsTrans α (keyDesc k) :=
  ⟨fun _ _ _ hab hbc => le_trans hbc hab⟩

/-- What GET /api/dashboard returns on success (main.py lines 322-326). -/
structure Dashboard where
  user : User
  goals : List Goal
  sacrifices : List Sacrifice
deriving DecidableEq

/-- main.py lines 305-326 (GET /api/dashboard): the user row
(`dict(c.fetchone())` raises TypeError when absent), all of the user's goals
ordered by `created_at DESC`, and the user's sacrifices ordered by
`created_at DESC` limited to 5. -/
def get_dashboard (db : DB) (user_id : Nat) : Except ApiError Dashboard :=
  match lookupUser db user_id with
  | none => .error .typeError
  | some u =>
      .ok { user := u
            goals := (db.goals.filter (fun g => g.user_id == user_id)).insertionSort
              (keyDesc Goal.created_at)
            sacrifices := ((db.sacrifices.filter (fun s => s.user_id == user_id)).insertionSort
              (keyDesc Sacrifice.created_at)).take 5 }

/-- One row of the GET /api/feed response: the feed event joined with the
triggering user's display fields (main.py lines 333-339). -/
structure FeedRow where
  event : FeedEvent
  name : String
  avatar_url : String
deriving DecidableEq

/-- main.py lines 328-347 (GET /api/feed): inner join of `feed_events` with
`users` on `user_id`, ordered by `f.created_at DESC`, limited to 20. -/
def get_feed (db : DB) : List FeedRow :=
  ((db.feed_events.filterMap fun f =>
      (db.users.find? (fun u => u.id == f.user_id)).map fun u =>
        FeedRow.mk f u.name u.avatar_url).insertionSort
    (keyDesc fun r => r.event.created_at)).take 20

/-- One row of the GET /api/leaderboard response (main.py lines 353-358). -/
structure LeaderboardRow where
  id : Nat
  name : String
  avatar_url : String
  total_saved : Money
  current_streak : Nat
deriving DecidableEq

/-- main.py lines 349-359 (GET /api/leaderboard): all users ordered by
`total_saved DESC`, limited to 10, projected to the five listed columns. -/
def get_leaderboard (db : DB) : List LeaderboardRow :=
  ((db.users.insertionSort (keyDesc User.total_saved)).take 10).map fun u =>
    LeaderboardRow.mk u.id u.name u.avatar_url u.total_saved u.current_streak

/-- main.py lines 361-380 (POST /api/goals): unconditionally insert the goal
row (progress `current_amount` takes the column default 0) and a
`goal_created` feed event, and return the new id and title.  The code
performs no validation of `title` or `target_amount`. -/
def create_goal (db : DB) (goal : GoalCreate) (user_id : Nat) (now : Nat) :
    DB × (Nat × String) :=
  let goal_id := db.next_goal_id
  ({ db with
      goals := db.goals ++
        [{ id := goal_id, user_id := user_id, title := goal.title
           target_amount := goal.target_amount, current_amount := 0
           category := goal.category, created_at := now }]
      feed_events := db.feed_events ++
        [{ id := db.next_feed_id, user_id := user_id, event_type := "goal_created"
           event_data := .goalCreated goal_id goal.title, created_at := now }]
      next_goal_id := goal_id + 1
      next_feed_id := db.next_feed_id + 1 },
   (goal_id, goal.title))

/-- main.py lines 409-423, the tail shared by both branches of
`log_sacrifice`: `UPDATE users SET total_saved = total_saved + ?,
current_streak = current_streak + 1 WHERE id = ?`, then insert the
`sacrifice_logged` feed event, then return the repetition count. -/
def creditAndFeed (db : DB) (user_id : Nat) (amount : Money)
    (sacrifice_id new_days : Nat) (title : String) (now : Nat) :
    DB × LogResult :=
  ({ db with
      users := db.users.map fun u =>
        if u.id == user_id then
          { u with total_saved := u.total_saved + amount
                   current_streak := u.current_streak + 1 }
        else u
      feed_events := db.feed_events ++
        [{ id := db.next_feed_id, user_id := user_id
           event_type := "sacrifice_logged"
           event_data := .sacrificeLogged sacrifice_id title new_days
           created_at := now }]
      next_feed_id := db.next_feed_id + 1 },
   { message := "Sacrifice logged", days := new_days })

/-- main.py lines 382-423 (POST /api/sacrifices): look up a sacrifice row for
(user_id, title); if found bump `days_count` and `last_done_date`, otherwise
insert a new row with `days_count` default 1 and this request's amount; then
credit the request's amount to the user, increment the streak, and append the
feed event.  The code performs no validation of `title` or `amount`. -/
def log_sacrifice (db : DB) (sacrifice : SacrificeCreate) (user_id : Nat)
    (now : Nat) : DB × LogResult :=
  match db.sacrifices.find?
      (fun s => s.user_id == user_id && s.title == sacrifice.title) with
  | some existing =>
      let db1 := { db with
        sacrifices := db.sacrifices.map fun s =>
          if s.id == existing.id then
            { s with days_count := existing.days_count + 1
                     last_done_date := some now }
          else s }
      creditAndFeed db1 user_id sacrifice.amount existing.id
        (existing.days_count + 1) sacrifice.title now
  | none =>
      let db1 := { db with
        sacrifices := db.sacrifices ++
          [{ id := db.next_sacrifice_id, user_id := user_id
             title := sacrifice.title, amount := sacrifice.amount
             days_count := 1, last_done_date := some now, created_at := now }]
        next_sacrifice_id := db.next_sacrifice_id + 1 }
      creditAndFeed db1 user_id sacrifice.amount db.next_sacrifice_id 1
        sacrifice.title now

/-- A sequence of `log_sacrifice` calls for one account, each with its request
body and its timestamp, applied in order. -/
def runLogs (db : DB) (user_id : Nat) : List (SacrificeCreate × Nat) → DB
  | [] => db
  | (sc, now) :: rest => runLogs (log_sacrifice db sc user_id now).1 user_id rest

/-! ### Helper lemmas about the operations -/

/-- The `UPDATE users` row transformer of main.py lines 410-413. -/
def creditUser (user_id : Nat) (amount : Money) (u : User) : User :=
  if u.id == user_id then
    { u with total_saved := u.total_saved + amount
             current_streak := u.current_streak + 1 }
  else u

theorem creditUser_id (user_id : Nat) (amount : Money) (u : User) :
    (creditUser user_id amount u).id = u.id := by
  unfold creditUser
  split <;> rfl

theorem users_log_sacrifice (db : DB) (sc : SacrificeCreate) (uid now : Nat) :
    (log_sacrifice db sc uid now).1.users =
      db.users.map (creditUser uid sc.amount) := by
  unfold log_sacrifice creditAndFeed creditUser
  cases db.sacrifices.find? (fun s => s.user_id == uid && s.title == sc.title) <;> rfl

theorem goals_log_sacrifice (db : DB) (sc : SacrificeCreate) (uid now : Nat) :
    (log_sacrifice db sc uid now).1.goals = db.goals := by
  unfold log_sacrifice creditAndFeed
  cases db.sacrifices.find? (fun s => s.user_id == uid && s.title == sc.title) <;> rfl

theorem feed_length_log_sacrifice (db : DB) (sc : SacrificeCreate) (uid now : Nat) :
    (log_sacrifice db sc uid now).1.feed_events.length =
      db.feed_events.length + 1 := by
  unfold log_sacrifice creditAndFeed
  cases db.sacrifices.find? (fun s => s.user_id == uid && s.title == sc.title) <;>
    simp

theorem message_log_sacrifice (db : DB) (sc : SacrificeCreate) (uid now : Nat) :
    (log_sacrifice db sc uid now).2.message = "Sacrifice logged" := by
  unfold log_sacrifice creditAndFeed
  cases db.sacrifices.find? (fun s => s.user_id == uid && s.title == sc.title) <;> rfl

theorem find?_map_id_preserving (f : User → User)
    (hf : ∀ u, (f u).id = u.id) (uid : Nat) :
    ∀ l : List User,
      (l.map f).find? (fun u => u.id == uid) =
        (l.find? (fun u => u.id == uid)).map f
  | [] => rfl
  | u :: l => by
      rw [List.map_cons, List.find?_cons, List.find?_cons, hf u]
      cases u.id == uid
      · exact find?_map_id_preserving f hf uid l
      · rfl

/-- Effect of one `log_sacrifice` call on the account row it targets. -/
theorem lookupUser_log_sacrifice (db : DB) (sc : SacrificeCreate)
    (uid now : Nat) (u0 : User) (h : lookupUser db uid = some u0) :
    lookupUser (log_sacrifice db sc uid now).1 uid =
      some { u0 with total_saved := u0.total_saved + sc.amount
                     current_streak := u0.current_streak + 1 } := by
  unfold lookupUser at h ⊢
  have hp := List.find?_some h
  rw [users_log_sacrifice,
    find?_map_id_preserving _ (creditUser_id uid sc.amount) uid, h]
  simp [creditUser, hp]

/-- Effect of one `log_sacrifice` call on any other account row. -/
theorem lookupUser_log_sacrifice_other (db : DB) (sc : SacrificeCreate)
    (uid uid2 now : Nat) (u0 : User) (h : lookupUser db uid = some u0)
    (hne : (u0.id == uid2) = false) :
    lookupUser (log_sacrifice db sc uid2 now).1 uid = some u0 := by
  unfold lookupUser at h ⊢
  rw [users_log_sacrifice,
    find?_map_id_preserving _ (creditUser_id uid2 sc.amount) uid, h]
  simp [creditUser, hne]

theorem lookupUser_runLogs (uid : Nat) :
    ∀ (calls : List (SacrificeCreate × Nat)) (db : DB) (u0 : User),
      lookupUser db uid = some u0 →
      lookupUser (runLogs db uid calls) uid =
        some { u0 with
          total_saved := u0.total_saved + (calls.map fun c => c.1.amount).sum
          current_streak := u0.current_streak + calls.length }
  | [], db, u0, h => by simpa [runLogs] using h
  | (sc, now) :: rest, db, u0, h => by
      have h2 := lookupUser_runLogs uid rest (log_sacrifice db sc uid now).1
        _ (lookupUser_log_sacrifice db sc uid now u0 h)
      rw [runLogs, h2]
      simp only [Option.some.injEq, User.mk.injEq, List.map_cons, List.sum_cons,
        List.length_cons, and_true, true_and]
      exact ⟨by ring, by omega⟩

/-- Effect of `log_sacrifice` on an arbitrary account row: the row is passed
through the `UPDATE users` transformer, which touches it only when its id is
the one credited. -/
theorem lookupUser_log_sacrifice_general (db : DB) (sc : SacrificeCreate)
    (uid uid2 now : Nat) (u0 : User) (h : lookupUser db uid = some u0) :
    lookupUser (log_sacrifice db sc uid2 now).1 uid =
      some (creditUser uid2 sc.amount u0) := by
  unfold lookupUser at h ⊢
  rw [users_log_sacrifice,
    find?_map_id_preserving _ (creditUser_id uid2 sc.amount) uid, h]
  rfl

theorem users_create_goal (db : DB) (g : GoalCreate) (uid now : Nat) :
    (create_goal db g uid now).1.users = db.users := rfl

theorem lookupUser_getOrCreateUser (db : DB) (sub email name avatar : String)
    (now uid : Nat) (u0 : User) (h : lookupUser db uid = some u0) :
    lookupUser (getOrCreateUser db sub email name avatar now).1 uid = some u0 := by
  unfold lookupUser at h ⊢
  unfold getOrCreateUser
  cases db.users.find? (fun u => u.google_sub == sub)
  · simp only [List.find?_append, h]
    rfl
  · exact h

/-! ### Concrete states used by witnesses and counterexamples -/

/-- State after one Google sign-in on a fresh database: a single account with
total saved 0 and streak 0. -/
def dbU : DB :=
  (getOrCreateUser emptyDB "sub-1" "ann@example.com" "Ann" "ann.png" 1).1

/-- The single account row of `dbU`. -/
def userU : User :=
  { id := 1, email := "ann@example.com", name := "Ann", avatar_url := "ann.png"
    google_sub := "sub-1", total_saved := 0, current_streak := 0
    last_save_date := none, created_at := 1 }

/-- `dbU` after logging the sacrifice "Skipped Latte" for 5: total saved 5,
streak 1. -/
def dbA : DB :=
  (log_sacrifice dbU { title := "Skipped Latte", amount := 5 } 1 2).1

/-! ### Claims -/

/-- Claim C1: for every account and every sequence of N `log_sacrifice`
calls for it, starting from total saved 0 and streak 0, the total saved
afterwards equals the sum of the amount arguments of those N calls (a value
invariant under reordering of the calls) and the streak equals exactly N,
whether or not titles repeat. -/
theorem runLogs_total_sum_streak_length (db : DB) (uid : Nat) (u0 : User)
    (calls : List (SacrificeCreate × Nat))
    (h : lookupUser db uid = some u0) (h0 : u0.total_saved = 0)
    (hs : u0.current_streak = 0) :
    ∃ u1, lookupUser (runLogs db uid calls) uid = some u1 ∧
      u1.total_saved = (calls.map fun c => c.1.amount).sum ∧
      u1.current_streak = calls.length ∧
      ∀ calls2 : List (SacrificeCreate × Nat), calls2.Perm calls →
        (calls2.map fun c => c.1.amount).sum =
          (calls.map fun c => c.1.amount).sum := by
  refine ⟨_, lookupUser_runLogs uid calls db u0 h, ?_, ?_, ?_⟩
  · simp [h0]
  · simp [hs]
  · exact fun c2 hp => (hp.map fun c => c.1.amount).sum_eq

/-- Concrete calls for the C1 witness: the same title twice with different
amounts. -/
def callsW : List (SacrificeCreate × Nat) :=
  [({ title := "Skipped Latte", amount := 9/2 }, 2),
   ({ title := "Skipped Latte", amount := 5 }, 3)]

/-- Witness for C1 at the concrete account of `dbU` and the calls `callsW`. -/
theorem runLogs_total_sum_streak_length_witness :
    ∃ u1, lookupUser (runLogs dbU 1 callsW) 1 = some u1 ∧
      u1.total_saved = (callsW.map fun c => c.1.amount).sum ∧
      u1.current_streak = callsW.length ∧
      ∀ calls2 : List (SacrificeCreate × Nat), calls2.Perm callsW →
        (calls2.map fun c => c.1.amount).sum =
          (callsW.map fun c => c.1.amount).sum :=
  runLogs_total_sum_streak_length dbU 1 userU callsW rfl rfl rfl

/-- Claim C2 is false as stated: `log_sacrifice` accepts a negative amount
(the code never validates it) and such a call decreases the account's total
saved, here from 5 to 2. -/
theorem total_saved_decreases_counterexample :
    (lookupUser dbA 1).map User.total_saved = some 5 ∧
    (lookupUser (log_sacrifice dbA { title := "Skipped Gym", amount := -3 } 1 7).1 1).map
      User.total_saved = some 2 ∧
    ¬ ((5 : Money) ≤ 2) := by
  refine ⟨?_, ?_, by norm_num⟩
  · norm_num +decide [dbA, dbU, getOrCreateUser, emptyDB, log_sacrifice,
      creditAndFeed, lookupUser]
  · norm_num +decide [dbA, dbU, getOrCreateUser, emptyDB, log_sacrifice,
      creditAndFeed, lookupUser]

/-- Claim C2 (amended): an account's streak never decreases under any
operation, and its total saved never decreases under `create_goal`,
`getOrCreateUser`, or any `log_sacrifice` whose amount is non-negative; a
`log_sacrifice` with a negative amount, which the code accepts, is the one
way total saved can decrease. -/
theorem aggregate_monotone_amended (db : DB) (uid : Nat) (u0 : User)
    (h : lookupUser db uid = some u0) :
    (∀ (sc : SacrificeCreate) (uid2 now : Nat), ∃ u1,
        lookupUser (log_sacrifice db sc uid2 now).1 uid = some u1 ∧
        u0.current_streak ≤ u1.current_streak ∧
        (0 ≤ sc.amount → u0.total_saved ≤ u1.total_saved)) ∧
    (∀ (g : GoalCreate) (uid2 now : Nat),
        lookupUser (create_goal db g uid2 now).1 uid = some u0) ∧
    (∀ (sub email name avatar : String) (now : Nat),
        lookupUser (getOrCreateUser db sub email name avatar now).1 uid = some u0) := by
  refine ⟨?_, fun g uid2 now => h, ?_⟩
  · intro sc uid2 now
    refine ⟨creditUser uid2 sc.amount u0,
      lookupUser_log_sacrifice_general db sc uid uid2 now u0 h, ?_, ?_⟩
    · unfold creditUser
      split
      · exact Nat.le_succ _
      · exact Nat.le_refl _
    · intro hamt
      unfold creditUser
      split
      · exact le_add_of_nonneg_right hamt
      · exact le_refl _
  · intro sub email name avatar now
    exact lookupUser_getOrCreateUser db sub email name avatar now uid u0 h

/-- Witness for the amended C2 at the concrete account of `dbU` and a
concrete non-negative amount. -/
theorem aggregate_monotone_amended_witness :
    ∃ u1,
      lookupUser (log_sacrifice dbU { title := "Skipped Latte", amount := 5 } 1 2).1 1 =
        some u1 ∧
      userU.current_streak ≤ u1.current_streak ∧
      userU.total_saved ≤ u1.total_saved := by
  obtain ⟨u1, h1, h2, h3⟩ :=
    (aggregate_monotone_amended dbU 1 userU rfl).1
      { title := "Skipped Latte", amount := 5 } 1 2
  exact ⟨u1, h1, h2, h3 (by norm_num)⟩

/-- Claim C3 is false as stated: `create_goal` with an empty title and a
negative target amount does not fail; it inserts a Goal record and a feed
event and returns the new id. -/
theorem create_goal_no_validation_counterexample :
    (create_goal dbU { title := "", target_amount := -5 } 1 2).1.goals.length = 1 ∧
    (create_goal dbU { title := "", target_amount := -5 } 1 2).1.feed_events.length = 1 ∧
    (create_goal dbU { title := "", target_amount := -5 } 1 2).2 = (1, "") ∧
    dbU.goals.length = 0 ∧ dbU.feed_events.length = 0 := by
  decide

/-- Claim C3 (amended): `create_goal` performs no input validation: even with
an empty title or a non-positive target amount it succeeds, inserting exactly
one Goal record (with progress 0) and exactly one `goal_created` feed event,
and returns the new goal's id and title. -/
theorem create_goal_always_inserts (db : DB) (g : GoalCreate) (uid now : Nat)
    (_h : g.title = "" ∨ g.target_amount ≤ 0) :
    (create_goal db g uid now).1.goals = db.goals ++
      [{ id := db.next_goal_id, user_id := uid, title := g.title
         target_amount := g.target_amount, current_amount := 0
         category := g.category, created_at := now }] ∧
    (create_goal db g uid now).1.feed_events = db.feed_events ++
      [{ id := db.next_feed_id, user_id := uid, event_type := "goal_created"
         event_data := .goalCreated db.next_goal_id g.title, created_at := now }] ∧
    (create_goal db g uid now).2 = (db.next_goal_id, g.title) :=
  ⟨rfl, rfl, rfl⟩

/-- Witness for the amended C3 at a concrete empty-title, negative-target
request. -/
theorem create_goal_always_inserts_witness :
    (create_goal dbU { title := "", target_amount := -5 } 1 2).1.goals =
      dbU.goals ++
        [{ id := 1, user_id := 1, title := "", target_amount := -5
           current_amount := 0, category := "General", created_at := 2 }] ∧
    (create_goal dbU { title := "", target_amount := -5 } 1 2).1.feed_events =
      dbU.feed_events ++
        [{ id := 1, user_id := 1, event_type := "goal_created"
           event_data := .goalCreated 1 "", created_at := 2 }] ∧
    (create_goal dbU { title := "", target_amount := -5 } 1 2).2 = (1, "") :=
  create_goal_always_inserts dbU { title := "", target_amount := -5 } 1 2 (Or.inl rfl)

/-- Claim C4 is false as stated: `log_sacrifice` with an empty title and a
negative amount does not fail; it creates a Sacrifice record, appends a feed
event, and mutates the account aggregate. -/
theorem log_sacrifice_no_validation_counterexample :
    (log_sacrifice dbU { title := "", amount := -1 } 1 2).2.message = "Sacrifice logged" ∧
    (log_sacrifice dbU { title := "", amount := -1 } 1 2).1.sacrifices.length = 1 ∧
    (log_sacrifice dbU { title := "", amount := -1 } 1 2).1.feed_events.length = 1 ∧
    (lookupUser (log_sacrifice dbU { title := "", amount := -1 } 1 2).1 1).map
      User.current_streak = some 1 := by
  decide

/-- Claim C4 (amended): `log_sacrifice` performs no input validation: even
with an empty title or a non-positive amount the call succeeds, appends
exactly one feed event, credits the request's amount to the account's total
saved, and increments its streak; state is mutated, not left unchanged. -/
theorem log_sacrifice_no_validation (db : DB) (sc : SacrificeCreate)
    (uid now : Nat) (_h : sc.title = "" ∨ sc.amount ≤ 0) :
    (log_sacrifice db sc uid now).2.message = "Sacrifice logged" ∧
    (log_sacrifice db sc uid now).1.feed_events.length = db.feed_events.length + 1 ∧
    ∀ u0, lookupUser db uid = some u0 →
      lookupUser (log_sacrifice db sc uid now).1 uid =
        some { u0 with total_saved := u0.total_saved + sc.amount
                       current_streak := u0.current_streak + 1 } :=
  ⟨message_log_sacrifice db sc uid now, feed_length_log_sacrifice db sc uid now,
   fun u0 h0 => lookupUser_log_sacrifice db sc uid now u0 h0⟩

/-- Witness for the amended C4 at a concrete empty-title, negative-amount
request. -/
theorem log_sacrifice_no_validation_witness :
    (log_sacrifice dbU { title := "", amount := -1 } 1 2).2.message = "Sacrifice logged" ∧
    lookupUser (log_sacrifice dbU { title := "", amount := -1 } 1 2).1 1 =
      some { userU with total_saved := userU.total_saved + (-1)
                        current_streak := userU.current_streak + 1 } := by
  obtain ⟨h1, h2, h3⟩ :=
    log_sacrifice_no_validation dbU { title := "", amount := -1 } 1 2 (Or.inl rfl)
  exact ⟨h1, h3 userU rfl⟩

/-- Claim C5: a `log_sacrifice` call whose (account, title) pair matches an
existing Sacrifice record leaves the number of records and every record's
id, owner, title, stored amount and creation time unchanged, sets that
record's repetition count to one more than before (refreshing its
last-performed timestamp), and reports the new count. -/
theorem log_sacrifice_existing_title (db : DB) (sc : SacrificeCreate)
    (uid now : Nat) (ex : Sacrifice)
    (h : db.sacrifices.find?
      (fun s => s.user_id == uid && s.title == sc.title) = some ex) :
    (log_sacrifice db sc uid now).1.sacrifices.length = db.sacrifices.length ∧
    (log_sacrifice db sc uid now).1.sacrifices.map
        (fun s => (s.id, s.user_id, s.title, s.amount, s.created_at)) =
      db.sacrifices.map
        (fun s => (s.id, s.user_id, s.title, s.amount, s.created_at)) ∧
    (log_sacrifice db sc uid now).1.sacrifices.find?
        (fun s => s.user_id == uid && s.title == sc.title) =
      some { ex with days_count := ex.days_count + 1
                     last_done_date := some now } ∧
    (log_sacrifice db sc uid now).2.days = ex.days_count + 1 := by
  have hsac : (log_sacrifice db sc uid now).1.sacrifices =
      db.sacrifices.map (fun s => if s.id == ex.id then
        { s with days_count := ex.days_count + 1
                 last_done_date := some now } else s) := by
    unfold log_sacrifice
    rw [h]
    rfl
  have hdays : (log_sacrifice db sc uid now).2.days = ex.days_count + 1 := by
    unfold log_sacrifice
    rw [h]
    rfl
  refine ⟨by rw [hsac]; simp, ?_, ?_, hdays⟩
  · rw [hsac, List.map_map]
    apply List.map_congr_left
    intro s _
    by_cases hs : s.id = ex.id <;> simp [hs]
  · rw [hsac, List.find?_map]
    have hpf : ((fun s : Sacrifice => s.user_id == uid && s.title == sc.title) ∘
        (fun s => if s.id == ex.id then
          { s with days_count := ex.days_count + 1
                   last_done_date := some now } else s)) =
        fun s : Sacrifice => s.user_id == uid && s.title == sc.title := by
      funext s
      by_cases hs : s.id = ex.id <;> simp [hs]
    rw [hpf, h]
    simp

/-- The Sacrifice record created in `dbA`. -/
def sacW : Sacrifice :=
  { id := 1, user_id := 1, title := "Skipped Latte", amount := 5
    days_count := 1, last_done_date := some 2, created_at := 2 }

/-- Witness for C5: repeating "Skipped Latte" in `dbA` with a different
amount bumps the count to 2 and keeps the stored amount 5. -/
theorem log_sacrifice_existing_title_witness :
    (log_sacrifice dbA { title := "Skipped Latte", amount := 7 } 1 9).1.sacrifices.length =
      dbA.sacrifices.length ∧
    (log_sacrifice dbA { title := "Skipped Latte", amount := 7 } 1 9).1.sacrifices.find?
        (fun s => s.user_id == 1 && s.title == "Skipped Latte") =
      some { sacW with days_count := sacW.days_count + 1
                       last_done_date := some 9 } ∧
    (log_sacrifice dbA { title := "Skipped Latte", amount := 7 } 1 9).2.days =
      sacW.days_count + 1 := by
  obtain ⟨h1, h2, h3, h4⟩ := log_sacrifice_existing_title dbA
    { title := "Skipped Latte", amount := 7 } 1 9 sacW (by decide)
  exact ⟨h1, h3, h4⟩

/-- Claim C6: a `log_sacrifice` call whose (account, title) pair matches no
existing Sacrifice record appends exactly one new record with repetition
count 1 storing the request's amount, appends exactly one `sacrifice_logged`
feed event, and reports count 1. -/
theorem log_sacrifice_new_title (db : DB) (sc : SacrificeCreate) (uid now : Nat)
    (h : db.sacrifices.find?
      (fun s => s.user_id == uid && s.title == sc.title) = none) :
    (log_sacrifice db sc uid now).1.sacrifices = db.sacrifices ++
      [{ id := db.next_sacrifice_id, user_id := uid, title := sc.title
         amount := sc.amount, days_count := 1, last_done_date := some now
         created_at := now }] ∧
    (log_sacrifice db sc uid now).1.feed_events = db.feed_events ++
      [{ id := db.next_feed_id, user_id := uid
         event_type := "sacrifice_logged"
         event_data := .sacrificeLogged db.next_sacrifice_id sc.title 1
         created_at := now }] ∧
    (log_sacrifice db sc uid now).2.days = 1 := by
  unfold log_sacrifice
  rw [h]
  exact ⟨rfl, rfl, rfl⟩

/-- Witness for C6: logging an unseen title in `dbU` creates the record and
the feed event. -/
theorem log_sacrifice_new_title_witness :
    (log_sacrifice dbU { title := "No Takeout", amount := 15 } 1 3).1.sacrifices =
      dbU.sacrifices ++
        [{ id := 1, user_id := 1, title := "No Takeout", amount := 15
           days_count := 1, last_done_date := some 3, created_at := 3 }] ∧
    (log_sacrifice dbU { title := "No Takeout", amount := 15 } 1 3).1.feed_events =
      dbU.feed_events ++
        [{ id := 1, user_id := 1, event_type := "sacrifice_logged"
           event_data := .sacrificeLogged 1 "No Takeout" 1, created_at := 3 }] ∧
    (log_sacrifice dbU { title := "No Takeout", amount := 15 } 1 3).2.days = 1 :=
  log_sacrifice_new_title dbU { title := "No Takeout", amount := 15 } 1 3 rfl

/-- Claim C7 is false as stated: for a missing account `get_dashboard` fails,
but with the uncaught Python TypeError from `dict(c.fetchone())` (a 500-class
internal error), not with NotFound; `get_me`, by contrast, does return
NotFound for the same situation. -/
theorem get_dashboard_missing_user_counterexample :
    get_dashboard emptyDB 7 = .error .typeError ∧
    get_dashboard emptyDB 7 ≠ .error .notFound ∧
    get_me emptyDB 7 = .error .notFound := by
  refine ⟨rfl, ?_, rfl⟩
  intro hcontr
  exact absurd (Except.error.inj hcontr) (by decide)

/-- Claim C7 (amended): `get_dashboard` is read-only and, for an existing
account, returns the account row, all of that account's goals newest first,
and at most 5 of its sacrifices newest first; for a missing account it fails,
but with the internal TypeError from `dict(None)`, not with NotFound. -/
theorem get_dashboard_amended (db : DB) (uid : Nat) :
    (lookupUser db uid = none → get_dashboard db uid = .error .typeError) ∧
    ∀ u, lookupUser db uid = some u →
      ∃ d, get_dashboard db uid = .ok d ∧ d.user = u ∧
        d.goals.Perm (db.goals.filter (fun g => g.user_id == uid)) ∧
        d.goals.Pairwise (fun a b => b.created_at ≤ a.created_at) ∧
        d.sacrifices.length ≤ 5 ∧
        d.sacrifices.Pairwise (fun a b => b.created_at ≤ a.created_at) ∧
        ∀ s ∈ d.sacrifices, s.user_id = uid := by
  constructor
  · intro h
    unfold get_dashboard
    rw [h]
  · intro u h
    refine ⟨{ user := u
              goals := (db.goals.filter (fun g => g.user_id == uid)).insertionSort
                (keyDesc Goal.created_at)
              sacrifices := ((db.sacrifices.filter
                (fun s => s.user_id == uid)).insertionSort
                  (keyDesc Sacrifice.created_at)).take 5 },
      ?_, rfl, ?_, ?_, ?_, ?_, ?_⟩
    · unfold get_dashboard
      rw [h]
    · exact List.perm_insertionSort _ _
    · exact (List.sorted_insertionSort (keyDesc Goal.created_at) _).imp
        fun hab => hab
    · rw [List.length_take]
      omega
    · exact List.Pairwise.sublist (List.take_sublist _ _)
        ((List.sorted_insertionSort (keyDesc Sacrifice.created_at) _).imp
          fun hab => hab)
    · intro s hs
      have h1 : s ∈ (db.sacrifices.filter (fun x => x.user_id == uid)) :=
        (List.mem_insertionSort _).mp (List.take_subset 5 _ hs)
      simpa using List.of_mem_filter h1

/-- `dbU` with two goals created at times 2 and 3. -/
def dbG : DB :=
  (create_goal (create_goal dbU { title := "Trip", target_amount := 400 } 1 2).1
    { title := "Laptop", target_amount := 800 } 1 3).1

/-- Witness for the amended C7: the missing-account branch at a fresh
database and the success branch at `dbG`. -/
theorem get_dashboard_amended_witness :
    get_dashboard emptyDB 3 = Except.error ApiError.typeError ∧
    (∃ d, get_dashboard dbG 1 = Except.ok d ∧ d.user = userU ∧
      d.goals.Perm (dbG.goals.filter (fun g => g.user_id == 1)) ∧
      d.goals.Pairwise (fun a b => b.created_at ≤ a.created_at) ∧
      d.sacrifices.length ≤ 5 ∧
      d.sacrifices.Pairwise (fun a b => b.created_at ≤ a.created_at) ∧
      ∀ s ∈ d.sacrifices, s.user_id = 1) :=
  ⟨(get_dashboard_amended emptyDB 3).1 rfl,
   (get_dashboard_amended dbG 1).2 userU rfl⟩

/-- Stability of `orderedInsert` under the total-saved order: inserting a row
that either saves strictly less than, or has a smaller id than, every row of
a tie-consistent list keeps ties ordered by id. -/
theorem pairwise_tie_orderedInsert (x : User) :
    ∀ l : List User,
      (∀ y ∈ l, x.total_saved < y.total_saved ∨ x.id < y.id) →
      l.Pairwise (fun a b => a.total_saved = b.total_saved → a.id < b.id) →
      (l.orderedInsert (keyDesc User.total_saved) x).Pairwise
        (fun a b => a.total_saved = b.total_saved → a.id < b.id)
  | [], _, _ => by simp [List.orderedInsert]
  | y :: ys, hx, hl => by
      rw [List.orderedInsert]
      by_cases hcond : keyDesc User.total_saved x y
      · rw [if_pos hcond]
        refine List.pairwise_cons.mpr ⟨?_, hl⟩
        intro z hz heq
        rcases hx z hz with h1 | h1
        · exact absurd heq (ne_of_lt h1)
        · exact h1
      · rw [if_neg hcond]
        rcases List.pairwise_cons.mp hl with ⟨hy, hys⟩
        refine List.pairwise_cons.mpr ⟨?_, ?_⟩
        · intro z hz
          rcases (List.mem_orderedInsert _).mp hz with rfl | hz2
          · intro heq
            exact absurd heq (ne_of_gt (by simpa [keyDesc] using hcond))
          · exact hy z hz2
        · exact pairwise_tie_orderedInsert x ys
            (fun z hz => hx z (List.mem_cons_of_mem _ hz)) hys

/-- Stability of the leaderboard sort: on a table whose rows carry strictly
increasing ids (rowid order), rows with equal total saved stay in id order. -/
theorem pairwise_tie_insertionSort :
    ∀ l : List User, l.Pairwise (fun a b => a.id < b.id) →
      (l.insertionSort (keyDesc User.total_saved)).Pairwise
        (fun a b => a.total_saved = b.total_saved → a.id < b.id)
  | [], _ => by simp [List.insertionSort]
  | x :: xs, h => by
      rw [List.insertionSort]
      rcases List.pairwise_cons.mp h with ⟨hx, hxs⟩
      exact pairwise_tie_orderedInsert x _
        (fun y hy => Or.inr (hx y ((List.mem_insertionSort _).mp hy)))
        (pairwise_tie_insertionSort xs hxs)

/-- Claim C8: `get_leaderboard` returns at most 10 rows, in non-increasing
order of total saved; on a table whose rows carry strictly increasing ids
(as AUTOINCREMENT guarantees), ties are ordered by the stable secondary key
id = account creation order, so the output is a deterministic function of
the state. -/
theorem get_leaderboard_sorted_bounded (db : DB)
    (hids : db.users.Pairwise (fun a b => a.id < b.id)) :
    (get_leaderboard db).length ≤ 10 ∧
    (get_leaderboard db).Pairwise (fun a b => b.total_saved ≤ a.total_saved) ∧
    (get_leaderboard db).Pairwise
      (fun a b => a.total_saved = b.total_saved → a.id < b.id) := by
  unfold get_leaderboard
  refine ⟨?_, ?_, ?_⟩
  · rw [List.length_map, List.length_take]
    omega
  · rw [List.pairwise_map]
    exact List.Pairwise.sublist (List.take_sublist _ _)
      ((List.sorted_insertionSort (keyDesc User.total_saved) db.users).imp
        fun hab => hab)
  · rw [List.pairwise_map]
    exact List.Pairwise.sublist (List.take_sublist _ _)
      ((pairwise_tie_insertionSort db.users hids).imp fun hab => hab)

/-- A bare account row used to build leaderboard states. -/
def userL (i : Nat) (t : Money) : User :=
  { id := i, email := "", name := "", avatar_url := "", google_sub := ""
    total_saved := t, current_streak := 0, last_save_date := none
    created_at := 0 }

/-- Three accounts with a tie on total saved (ids 1 and 3 both at 5). -/
def dbL : DB := { emptyDB with users := [userL 1 5, userL 2 7, userL 3 5] }

/-- Witness for C8 at the concrete tied state `dbL`. -/
theorem get_leaderboard_sorted_bounded_witness :
    (get_leaderboard dbL).length ≤ 10 ∧
    (get_leaderboard dbL).Pairwise (fun a b => b.total_saved ≤ a.total_saved) ∧
    (get_leaderboard dbL).Pairwise
      (fun a b => a.total_saved = b.total_saved → a.id < b.id) :=
  get_leaderboard_sorted_bounded dbL (by decide)

/-- `dbU` after two `log_sacrifice` calls in the same second (`now = 5`), as
happens with SQLite's second-granularity CURRENT_TIMESTAMP. -/
def dbT : DB :=
  (log_sacrifice (log_sacrifice dbU { title := "A", amount := 1 } 1 5).1
    { title := "B", amount := 2 } 1 5).1

/-- Claim C9 is false as stated: two feed events can carry the same creation
time, so the feed is then not strictly ordered by creation time. -/
theorem get_feed_not_strict_counterexample :
    (get_feed dbT).length = 2 ∧
    ((get_feed dbT).map fun r => r.event.created_at) = [5, 5] ∧
    ¬ (get_feed dbT).Pairwise
      (fun a b => b.event.created_at < a.event.created_at) :=
  ⟨by decide, by decide, by decide⟩

/-- Claim C9 (amended): `get_feed` returns at most 20 entries, ordered by
creation time non-increasing (strictly descending only when creation times
are distinct), each enriched with the triggering account's display name and
avatar. -/
theorem get_feed_bounded_sorted_enriched (db : DB) :
    (get_feed db).length ≤ 20 ∧
    (get_feed db).Pairwise (fun a b => b.event.created_at ≤ a.event.created_at) ∧
    ∀ r ∈ get_feed db, r.event ∈ db.feed_events ∧
      ∃ u, u ∈ db.users ∧ u.id = r.event.user_id ∧
        r.name = u.name ∧ r.avatar_url = u.avatar_url := by
  unfold get_feed
  refine ⟨?_, ?_, ?_⟩
  · rw [List.length_take]
    omega
  · exact List.Pairwise.sublist (List.take_sublist _ _)
      ((List.sorted_insertionSort
        (keyDesc fun r : FeedRow => r.event.created_at) _).imp fun hab => hab)
  · intro r hr
    have h1 := (List.mem_insertionSort _).mp (List.take_subset 20 _ hr)
    rcases List.mem_filterMap.mp h1 with ⟨f, hf, hmap⟩
    rcases Option.map_eq_some'.mp hmap with ⟨u, hu, hru⟩
    cases hru
    exact ⟨hf, u, List.mem_of_find?_eq_some hu,
      by simpa using List.find?_some hu, rfl, rfl⟩

/-- Witness for the amended C9 at the concrete state `dbT`. -/
theorem get_feed_bounded_sorted_enriched_witness :
    (get_feed dbT).length ≤ 20 ∧
    (get_feed dbT).Pairwise (fun a b => b.event.created_at ≤ a.event.created_at) ∧
    ∀ r ∈ get_feed dbT, r.event ∈ dbT.feed_events ∧
      ∃ u, u ∈ dbT.users ∧ u.id = r.event.user_id ∧
        r.name = u.name ∧ r.avatar_url = u.avatar_url :=
  get_feed_bounded_sorted_enriched dbT

/-- Claim C10: frame conditions of the mutating operations: `create_goal`
leaves the account rows (total saved, streak), every Sacrifice record and
every pre-existing Goal record unchanged, and `log_sacrifice` leaves the
goals table (including every progress amount) entirely unchanged. -/
theorem frame_conditions (db : DB) (g : GoalCreate) (sc : SacrificeCreate)
    (uid uid2 now now2 : Nat) :
    (create_goal db g uid now).1.users = db.users ∧
    (create_goal db g uid now).1.sacrifices = db.sacrifices ∧
    (create_goal db g uid now).1.goals.take db.goals.length = db.goals ∧
    (log_sacrifice db sc uid2 now2).1.goals = db.goals :=
  ⟨rfl, rfl, List.take_left _ _, goals_log_sacrifice db sc uid2 now2⟩

end Savings
